import Mathlib

/-!
# Verification of the NanoCLUST abundance reconciliation and merge pipeline

Shallow embedding of `templates/get_abundance.py`: classifier reconciliation
(`choose_classification`), per-sample relative abundance (`get_abundance_values`),
taxonomy resolution (`get_taxname_from_dmp` / `get_taxname`) and the
multi-sample merge (`merge_abundance`), plus the rank-level driver script tail.

Modelling conventions:
* A pandas cell is `Option Val` (`none` = NaN/missing); `Val` distinguishes the
  numeric and string scalars the script inspects (`type(x) != str`).
* Taxonomy identifiers are integers (`Option Int`, `none` = NaN), so Python's
  `int(tax_id)` coercion is the identity on non-NaN ids.
* The remote Unipept service (`requests.get` + `json.loads`) is an oracle
  parameter `remote : Int → Except Unit (List RemoteRecord)`; `Except.error`
  models the HTTP request itself raising (`requests.get` is *outside* the
  `try` in `get_taxname`), while a parse failure / empty JSON array / missing
  field is modelled inside `RemoteRecord` and is caught by the `try`.
* Python exceptions are `Except Unit`; a bare `except:` is a `match` on it.
-/

/-- A scalar value held in a (non-NaN) pandas cell: a number or a string. -/
inductive Val where
  | num (q : ℚ)
  | str (s : String)
deriving DecidableEq, Repr

/-- A pandas cell: `none` models NaN / a missing value (`notna` = `isSome`). -/
abbrev Cell := Option Val

/-- One row of the per-sample classification table, after the leading index
column has been dropped (`.iloc[:,1:]`).  `cells` is the positional view used
by `row.iloc[...]` and `row.notna()[...]`; `class_level` is the value of the
label-addressed `row['class_level']` column. -/
structure Row where
  class_level : Cell
  cells : List Cell
deriving DecidableEq, Repr

/-- A per-sample classification table: column labels and rows. -/
structure Table where
  cols : List String
  rows : List Row
deriving DecidableEq, Repr

/-- Count of non-missing entries in `cells[a:b]` (`sum(row.notna()[a:b])`). -/
def notnaSlice (cells : List Cell) (a b : Nat) : Nat :=
  (((cells.drop a).take (b - a)).filter Option.isSome).length

/-- Count of non-missing entries in `cells[a:]` (`sum(row.notna()[a:])`). -/
def notnaFrom (cells : List Cell) (a : Nat) : Nat :=
  ((cells.drop a).filter Option.isSome).length

/-! ## Classifier Reconciler (`choose_classification`) -/

/-- The three candidate classifiers of the `classification_score` dict. -/
inductive Classifier where
  | kraken2
  | blast
  | seqmatch
deriving DecidableEq, Repr

/-- Python's `max(d, key=d.get)` over an association list: the first key whose
score is maximal wins; a later key replaces the current best only when its
score is strictly greater. -/
def argmaxFirst (best : Classifier × Nat) : List (Classifier × Nat) → Classifier
  | [] => best.1
  | p :: t => if best.2 < p.2 then argmaxFirst p t else argmaxFirst best t

/-- `classification_score["kraken2"] = sum(row.notna()[8:12])`. -/
def kraken2Score (r : Row) : Nat := notnaSlice r.cells 8 12

/-- `classification_score["blast"] = sum(row.notna()[24:])`. -/
def blastScore (r : Row) : Nat := notnaFrom r.cells 24

/-- `classification_score["seqmatch"] = sum(row.notna()[16:20])`. -/
def seqmatchScore (r : Row) : Nat := notnaSlice r.cells 16 20

/-- `choice = max(classification_score, key=classification_score.get)`, the
dict having been filled in insertion order kraken2, blast, seqmatch. -/
def chooseClassifier (r : Row) : Classifier :=
  argmaxFirst (.kraken2, kraken2Score r)
    [(.blast, blastScore r), (.seqmatch, seqmatchScore r)]

/-- The record appended to `chosen_frame` for one row: the first 12 columns
verbatim when `row['class_level']=="S"`, otherwise the winning classifier's
column slice (`row.iloc[:12]`, `row.iloc[np.r_[0:4,13:20]]` or
`row.iloc[np.r_[0:4,20:28]]`). -/
def choose_row (r : Row) : List Cell :=
  if r.class_level = some (Val.str "S") then
    r.cells.take 12
  else
    match chooseClassifier r with
    | .kraken2 => r.cells.take 12
    | .seqmatch => r.cells.take 4 ++ (r.cells.drop 13).take 7
    | .blast => r.cells.take 4 ++ (r.cells.drop 20).take 8

/-- The 12 column labels of the reconciled output frame `chosen_df`. -/
def chosenCols : List String :=
  ["reads_in_cluster", "used_for_consensus", "reads_after_corr", "draft_id",
   "classifier_name", "taxid", "stat", "name", "species", "genus", "family",
   "order"]

/-- A plain data frame with positional rows, e.g. the reconciled `chosen_df`. -/
structure Frame where
  cols : List String
  rows : List (List Cell)
deriving DecidableEq, Repr

/-- The reconciled table: a chosen record per row when the table has more than
13 columns, otherwise `chosen_frame` stays `[]`; either way `chosen_df` is
built with the 12 labels of `chosenCols`. -/
def choose_classification (t : Table) : Frame :=
  { cols := chosenCols
    rows := if 13 < t.cols.length then t.rows.map choose_row else [] }

/-! ## Relative Abundance Calculator (`get_abundance_values`)

The `reads_in_cluster` column is the first column of the table once the
leading index column has been dropped, so `data1['reads_in_cluster']` reads
cell 0 of each row, and likewise for the reconciled `chosen_df`, whose first
label is `reads_in_cluster`. -/

/-- Effectful map over a list in the `Option` monad (a Python loop whose body
may fail), written as a structural recursion. -/
def mapMo {α β : Type} (f : α → Option β) : List α → Option (List β)
  | [] => some []
  | a :: t =>
    match f a, mapMo f t with
    | some b, some bs => some (b :: bs)
    | _, _ => none

/-- Effectful map over a list in the `Except` monad (a Python loop whose body
may raise; the first exception wins), written as a structural recursion. -/
def mapMe {ε α β : Type} (f : α → Except ε β) : List α → Except ε (List β)
  | [] => .ok []
  | a :: t =>
    match f a with
    | .error e => .error e
    | .ok b =>
      match mapMe f t with
      | .error e => .error e
      | .ok bs => .ok (b :: bs)

/-- The numeric content of a cell; `none` when the cell is NaN or a string
(arithmetic on it would not produce a number). -/
def cellQ : Cell → Option ℚ
  | some (Val.num q) => some q
  | _ => none

/-- Python division `a / b`; the source leaves `b = 0` unguarded, so the
result is undefined (`none`, NaN / `ZeroDivisionError`) in that case. -/
def pydiv (a b : ℚ) : Option ℚ :=
  if b = 0 then none else some (a / b)

/-- `total = sum(data1['reads_in_cluster'])`: sum of the first cell of every
row of the *raw* table; `none` if some cell is not a number. -/
def sample_total (t : Table) : Option ℚ :=
  (mapMo (fun r => cellQ r.cells.headI) t.rows).map List.sum

/-- The `rel_abundance` list built row by row over the *reconciled* table:
`row['reads_in_cluster'] / total * 100`, each entry undefined (`none`) when
`total = 0`. -/
def rel_abundances (t : Table) : Option (List (Option ℚ)) := do
  let tot ← sample_total t
  let reads ← mapMo (fun cs => cellQ cs.headI) (choose_classification t).rows
  pure (reads.map (fun v => (pydiv v tot).map (· * 100)))

/-! ## Taxonomy Resolver (`get_taxname_from_dmp`, `get_taxname`)

`get_taxname_from_dmp(data, tax_id, tax_level)` receives as `data` the last
sample's reconciled frame and selects rows by `data['taxid'] == tax_id`, then
reads the rank column, then `"name"`, then `"sciname"`.  We model the table
as a list of records with those fields; in the script the frame actually
lacks a `sciname` column (so that access would raise and fall through to the
remote resolver) — no claim below depends on the `sciname` tier. -/

/-- One row of the local taxonomy lookup table, keyed by `taxid`.
`taxid = none` is a NaN key, which pandas `==` never matches.  The name
fields hold a `Val` (a NaN cell is carried as a non-string float; only its
non-string-ness is ever inspected by the first two tiers).  `sciname = none`
models a table without a `sciname` column — the script passes the reconciled
frame here, which has none — so that tier raises `KeyError`. -/
structure DmpRow where
  taxid : Option ℚ
  species : Val
  genus : Val
  family : Val
  order : Val
  name : Val
  sciname : Option Val
deriving DecidableEq, Repr

/-- The rank column selected by `tags = {"S": "species", "G": "genus",
"F": "family", "O": "order"}`; `none` models the `KeyError` raised by
`tags[tax_level]` for any other tag. -/
def dmpField : String → Option (DmpRow → Val)
  | "S" => some (fun r => r.species)
  | "G" => some (fun r => r.genus)
  | "F" => some (fun r => r.family)
  | "O" => some (fun r => r.order)
  | _ => none

/-- `get_taxname_from_dmp`: local taxonomy resolution.  `tax_id = none`
models a NaN id (`str(tax_id) == "nan"`).  Errors: unknown rank tag
(`KeyError`) and id absent from the table (`IndexError` from `.iloc[0]`).
The third fallback tier returns `sciname` without a type check. -/
def get_taxname_from_dmp (data : List DmpRow) (tax_id : Option ℚ)
    (tax_level : String) : Except Unit Val :=
  match dmpField tax_level with
  | none => .error ()
  | some fld =>
    match tax_id with
    | none => .ok (.str "unclassified")
    | some q =>
      match (data.filter (fun row => decide (row.taxid = some q))).head? with
      | none => .error ()
      | some row =>
        match fld row with
        | .str s => .ok (.str s)
        | _ =>
          match row.name with
          | .str s => .ok (.str s)
          | _ =>
            match row.sciname with
            | some v => .ok v
            | none => .error ()

/-- One record of the remote service's JSON array; a `none` field models a
key missing from the JSON object (`KeyError`, caught by the `try`). -/
structure RemoteRecord where
  species_name : Option String
  genus_name : Option String
  family_name : Option String
  order_name : Option String
  class_name : Option String
  taxon_name : Option String
deriving DecidableEq, Repr

/-- The rank-specific field selected by `tags = {"S": "species_name", "G":
"genus_name", "F": "family_name", "O": "order_name", "C": "class_name"}`;
`none` models the `KeyError` raised by `tags[tax_level]`, which in
`get_taxname` happens before the `try` and therefore propagates. -/
def remoteField : String → Option (RemoteRecord → Option String)
  | "S" => some (fun r => r.species_name)
  | "G" => some (fun r => r.genus_name)
  | "F" => some (fun r => r.family_name)
  | "O" => some (fun r => r.order_name)
  | "C" => some (fun r => r.class_name)
  | _ => none

/-- Python `int()` on a rational: truncation toward zero (identity on the
integer-valued ids that occur in practice). -/
def pyint (q : ℚ) : Int := q.num.tdiv q.den

/-- A remote-service oracle: `.error` models `requests.get` itself raising
(network failure); `.ok []` models an empty or unparseable JSON array (the
`IndexError`/`ValueError` is caught by the `try` in `get_taxname`). -/
abbrev RemoteOracle := Int → Except Unit (List RemoteRecord)

/-- The reassignment `if str(tax_id) == "nan": tax_id = 1` — a NaN id is
coerced to the root taxon `1` before the remote request. -/
def nanToOne : Option ℚ → ℚ
  | none => 1
  | some q => q

/-- The name extracted from the decoded remote response inside the `try`:
element 0's rank-specific field, falling back to `taxon_name` when that is
the empty string, and to `str(int(tax_id))` on `IndexError`/`KeyError`. -/
def remoteName (fld : RemoteRecord → Option String) (q : ℚ)
    (recs : List RemoteRecord) : String :=
  match recs.head? with
  | none => toString (pyint q)
  | some rec =>
    match fld rec with
    | none => toString (pyint q)
    | some nm =>
      if nm = "" then
        match rec.taxon_name with
        | none => toString (pyint q)
        | some t => t
      else nm

/-- `get_taxname`: remote taxonomy resolution.  The `tags[tax_level]` lookup
and the `requests.get` call sit *outside* the `try`, so an unknown tag or a
failing request propagates; everything from `json.loads` on is caught and
degrades to `str(int(tax_id))` (with `tax_id` already coerced to `1` when it
was NaN). -/
def get_taxname (remote : RemoteOracle) (tax_id : Option ℚ)
    (tax_level : String) : Except Unit Val :=
  match remoteField tax_level with
  | none => .error ()
  | some fld =>
    match remote (pyint (nanToOne tax_id)) with
    | .error e => .error e
    | .ok recs => .ok (.str (remoteName fld (nanToOne tax_id) recs))

/-- The per-row resolution performed inside `merge_abundance`:
`try: get_taxname_from_dmp(...) except: get_taxname(...)` — the remote call
in the `except` arm is unprotected, so its errors propagate. -/
def resolveRow (remote : RemoteOracle) (data : List DmpRow)
    (tax_id : Option ℚ) (tax_level : String) : Except Unit Val :=
  match get_taxname_from_dmp data tax_id tax_level with
  | .ok v => .ok v
  | .error _ => get_taxname remote tax_id tax_level

/-! ## Multi-Sample Merger (`merge_abundance`)

A per-sample abundance frame `pd.DataFrame({'taxid': ..., 'rel_abundance':
..., 'reads': ...})` is a key column (`taxid`, `none` = NaN) plus named
numeric columns.  `pd.merge(..., on='taxid', how='outer')` suffixes
overlapping non-key column labels with `_x`/`_y`; `.fillna(0)` immediately
after each join is folded into the join as zero-fill.  Pandas lists matched
left rows first and appends unmatched right rows (an outer join also sorts
the key union; no claim below depends on the row order that a *multi*-frame
join produces, so the left-then-right order is kept). -/

/-- A per-sample (or joined) abundance frame: taxid key plus numeric columns. -/
structure TaxDF where
  cols : List String
  rows : List (Option ℚ × List ℚ)
deriving DecidableEq, Repr

/-- The merged frame after `df_final["taxid"] = all_tax`: keys are resolved
names (values returned by the Resolver). -/
structure NameDF where
  cols : List String
  rows : List (Val × List ℚ)
deriving DecidableEq, Repr

/-- Non-key column labels of a join: overlapping labels get `_x`/`_y`. -/
def mergeCols (lc rc : List String) : List String :=
  lc.map (fun c => if c ∈ rc then c ++ "_x" else c) ++
    rc.map (fun c => if c ∈ lc then c ++ "_y" else c)

/-- `pd.merge(left, right, on='taxid', how='outer').fillna(0)`. -/
def outerMerge (l r : TaxDF) : TaxDF :=
  { cols := mergeCols l.cols r.cols
    rows :=
      l.rows.flatMap (fun p =>
        let ms := r.rows.filter (fun q => decide (q.1 = p.1))
        if ms.isEmpty then [(p.1, p.2 ++ List.replicate r.cols.length 0)]
        else ms.map (fun q => (p.1, p.2 ++ q.2))) ++
      (r.rows.filter (fun q => l.rows.all (fun p => !decide (p.1 = q.1)))).map
        (fun q => (q.1, List.replicate l.cols.length 0 ++ q.2)) }

/-- Lexicographic comparison of character lists by code point — the string
order pandas/Python use when sorting keys. -/
def charListLe : List Char → List Char → Bool
  | [], _ => true
  | _ :: _, [] => false
  | a :: as, b :: bs =>
    if a.toNat < b.toNat then true
    else if b.toNat < a.toNat then false
    else charListLe as bs

/-- Ordering of group keys used by `groupby` (`sort=True`): numbers before
strings, numbers by value, strings lexicographically.  (Mixed-type keys would
actually make pandas' sort raise; resolved keys are names, one type.) -/
def Val.le : Val → Val → Prop
  | .num p, .num q => p ≤ q
  | .num _, .str _ => True
  | .str _, .num _ => False
  | .str s, .str t => charListLe s.data t.data = true

instance : DecidableRel Val.le := fun a b =>
  match a, b with
  | .num p, .num q => inferInstanceAs (Decidable (p ≤ q))
  | .num _, .str _ => .isTrue trivial
  | .str _, .num _ => .isFalse (fun h => h)
  | .str s, .str t => inferInstanceAs (Decidable (charListLe s.data t.data = true))

instance {ε α : Type} [DecidableEq ε] [DecidableEq α] :
    DecidableEq (Except ε α) := fun a b =>
  match a, b with
  | .error e, .error f =>
    if h : e = f then .isTrue (by rw [h]) else .isFalse (by simp [h])
  | .ok x, .ok y =>
    if h : x = y then .isTrue (by rw [h]) else .isFalse (by simp [h])
  | .error _, .ok _ => .isFalse (fun h => Except.noConfusion h)
  | .ok _, .error _ => .isFalse (fun h => Except.noConfusion h)

/-- Componentwise sum of the value rows of one group. -/
def sumRows : List (List ℚ) → List ℚ
  | [] => []
  | v :: vs => vs.foldl (fun acc w => acc.zipWith (· + ·) w) v

/-- `df_final.groupby(["taxid"], as_index=False).sum()`: one row per distinct
key, keys sorted ascending (`sort=True` default), numeric columns summed
across the group's rows. -/
def groupbySum (f : NameDF) : NameDF :=
  { cols := f.cols
    rows :=
      (List.insertionSort Val.le (f.rows.map Prod.fst).dedup).map (fun k =>
        (k, sumRows ((f.rows.filter (fun p => decide (p.1 = k))).map
          Prod.snd))) }

/-- `df_final_grp.sort_values(by='rel_abundance', ascending=False)`: raises
`KeyError` when no column is labelled `rel_abundance`; otherwise sorts rows
by that column, descending (modelled as a stable sort, the reading most
favourable to the spec's tie-break wording). -/
def sort_values_rel (f : NameDF) : Except Unit NameDF :=
  match f.cols.findIdx? (fun c => decide (c = "rel_abundance")) with
  | none => .error ()
  | some i =>
    .ok { cols := f.cols
          rows := List.insertionSort
            (fun p q => (q.2.getD i 0 : ℚ) ≤ p.2.getD i 0) f.rows }

/-- `merge_abundance(dfs, data, tax_level)`: left fold of outer joins
(`reduce`, raising `TypeError` on an empty list), per-row name resolution
(local table first, remote fallback, errors propagating), group-and-sum by
resolved name, then sort by `rel_abundance` descending. -/
def merge_abundance (remote : RemoteOracle) (data : List DmpRow)
    (tax_level : String) (dfs : List TaxDF) : Except Unit NameDF :=
  match dfs with
  | [] => .error ()
  | d :: ds =>
    let dfFinal := ds.foldl outerMerge d
    match mapMe (fun p : Option ℚ × List ℚ =>
        (resolveRow remote data p.1 tax_level).map (fun n => (n, p.2)))
        dfFinal.rows with
    | .error e => .error e
    | .ok rows' => sort_values_rel (groupbySum { cols := dfFinal.cols, rows := rows' })

/-! ## Rank-Level Driver (`get_abundance` and the script tail)

Input CSVs are taken as already-parsed `Table`s.  A per-sample frame whose
arithmetic is undefined (non-numeric reads cell, or the unguarded division by
a zero total) makes the model return `none`; no claim below depends on the
NaN values pandas would float through instead. -/

/-- The non-NaN value of a cell as seen by `type`-insensitive arithmetic-free
uses; a NaN cell is carried as a non-string float (here `Val.num 0` — only
its non-string-ness is ever inspected). -/
def cellVal (c : Cell) : Val := c.getD (Val.num 0)

/-- The frame `pd.DataFrame({'taxid': data['taxid'], 'rel_abundance':
rel_abundance, 'reads': data['reads_in_cluster']})` built for one sample:
key = cell 5 of each reconciled row (NaN or non-numeric ⇒ `none`), columns
`rel_abundance` and `reads`. -/
def sample_frame (t : Table) : Option TaxDF := do
  let tot ← sample_total t
  let rows ← mapMo (fun cs => do
    let v ← cellQ cs.headI
    let rel ← pydiv v tot
    pure ((cellQ (cs.getD 5 none), [rel * 100, v]) : Option ℚ × List ℚ))
    (choose_classification t).rows
  pure { cols := ["rel_abundance", "reads"], rows := rows }

/-- `get_abundance_values(names, paths)`: one abundance frame per sample,
plus the loop variable `data` — the *last* sample's reconciled frame — which
leaks out of the loop (`NameError`, i.e. `none`, when there is no sample). -/
def get_abundance_values (tables : List Table) :
    Option (List TaxDF × Frame) := do
  let dfs ← mapMo sample_frame tables
  match (tables.map choose_classification).getLast? with
  | none => none
  | some last => pure (dfs, last)

/-- The reconciled frame reinterpreted as the local taxonomy table handed to
`merge_abundance` as `data`: `taxid` is cell 5, `name` cell 7, `species`,
`genus`, `family`, `order` cells 8–11; there is no `sciname` column.  (A
string-valued taxid cell is conflated with NaN; classifier taxids are
numeric.) -/
def dmpOfChosen (rows : List (List Cell)) : List DmpRow :=
  rows.map (fun cs =>
    { taxid := cellQ (cs.getD 5 none)
      species := cellVal (cs.getD 8 none)
      genus := cellVal (cs.getD 9 none)
      family := cellVal (cs.getD 10 none)
      order := cellVal (cs.getD 11 none)
      name := cellVal (cs.getD 7 none)
      sciname := none })

/-- The name of the CSV written by one `get_abundance` call:
`"rel_abundance_" + names[0] + "_" + tax_level + ".csv"`. -/
def outfileName (barcode tax_level : String) : String :=
  "rel_abundance_" ++ barcode ++ "_" ++ tax_level ++ ".csv"

/-- `get_abundance(names, paths, tax_level)` for already list-wrapped
arguments: runs the reconcile/compute/merge pipeline afresh and returns the
output file name together with the table written to it. -/
def get_abundance (remote : RemoteOracle) (tables : List Table)
    (names : List String) (tax_level : String) :
    String × Option (Except Unit NameDF) :=
  (outfileName names.headI tax_level,
   (get_abundance_values tables).map (fun p =>
     merge_abundance remote (dmpOfChosen p.2.rows) tax_level p.1))

/-- The script tail: `paths = "$table"` and `names = "$barcode"` are single
strings, wrapped into singleton lists by `get_abundance`, which is then
called once per rank tag, in source order `"G"`, `"S"`, `"O"`, `"F"`. -/
def script (remote : RemoteOracle) (table : Table) (barcode : String) :
    List (String × Option (Except Unit NameDF)) :=
  [get_abundance remote [table] [barcode] "G",
   get_abundance remote [table] [barcode] "S",
   get_abundance remote [table] [barcode] "O",
   get_abundance remote [table] [barcode] "F"]

/-! ## Shared lemmas -/

/-- `mapMo` succeeds elementwise when every element does. -/
theorem mapMo_eq_some {α β : Type} (f : α → Option β) (g : α → β) :
    ∀ l : List α, (∀ x ∈ l, f x = some (g x)) → mapMo f l = some (l.map g) := by
  intro l
  induction l with
  | nil => intro _; rfl
  | cons a t ih =>
    intro h
    simp only [mapMo]
    rw [h a (by simp), ih (fun x hx => h x (by simp [hx]))]
    rfl

/-- `mapMe` succeeds elementwise when every element does. -/
theorem mapMe_eq_ok {ε α β : Type} (f : α → Except ε β) (g : α → β) :
    ∀ l : List α, (∀ x ∈ l, f x = .ok (g x)) → mapMe f l = .ok (l.map g) := by
  intro l
  induction l with
  | nil => intro _; rfl
  | cons a t ih =>
    intro h
    simp only [mapMe]
    rw [h a (by simp), ih (fun x hx => h x (by simp [hx]))]
    rfl

/-- Reading back the numeric cells named by a list of rationals. -/
theorem mapMo_cellQ {α : Type} (f : α → Cell) :
    ∀ (l : List α) (reads : List ℚ),
      l.map f = reads.map (fun v => some (Val.num v)) →
      mapMo (fun x => cellQ (f x)) l = some reads := by
  intro l
  induction l with
  | nil =>
    intro reads h
    cases reads with
    | nil => rfl
    | cons v vs => simp at h
  | cons a t ih =>
    intro reads h
    cases reads with
    | nil => simp at h
    | cons v vs =>
      simp only [List.map_cons, List.cons.injEq] at h
      obtain ⟨h1, h2⟩ := h
      simp only [mapMo]
      rw [show cellQ (f a) = some v from by rw [h1]; rfl, ih vs h2]

/-- The head of a 4-element prefix is the head. -/
theorem headI_take_four (l : List Cell) : (l.take 4).headI = l.headI := by
  cases l <;> rfl

/-- Within `max`'s insertion order, kraken2 wins unless strictly beaten. -/
theorem chooseClassifier_eq_kraken2 (r : Row)
    (h1 : blastScore r ≤ kraken2Score r) (h2 : seqmatchScore r ≤ kraken2Score r) :
    chooseClassifier r = .kraken2 := by
  simp only [chooseClassifier, argmaxFirst]
  split_ifs <;> first | rfl | (exfalso; omega)

/-- blast wins exactly when it strictly beats kraken2 and is not strictly
beaten by seqmatch. -/
theorem chooseClassifier_eq_blast (r : Row)
    (h1 : kraken2Score r < blastScore r) (h2 : seqmatchScore r ≤ blastScore r) :
    chooseClassifier r = .blast := by
  simp only [chooseClassifier, argmaxFirst]
  split_ifs <;> first | rfl | (exfalso; omega)

/-- seqmatch wins exactly when it strictly beats both others. -/
theorem chooseClassifier_eq_seqmatch (r : Row)
    (h1 : kraken2Score r < seqmatchScore r) (h2 : blastScore r < seqmatchScore r) :
    chooseClassifier r = .seqmatch := by
  simp only [chooseClassifier, argmaxFirst]
  split_ifs <;> first | rfl | (exfalso; omega)

/-- Taking four keeps a length-four prefix. -/
theorem take_four_append (l1 l2 : List Cell) (h : l1.length = 4) :
    List.take 4 (l1 ++ l2) = l1 := by
  rw [← h, List.take_left]

/-- Every branch of `choose_row` copies the first four cells verbatim. -/
theorem choose_row_take4 (r : Row) (h : 4 ≤ r.cells.length) :
    (choose_row r).take 4 = r.cells.take 4 := by
  have htl : (r.cells.take 4).length = 4 := by
    rw [List.length_take]; omega
  unfold choose_row
  split_ifs
  · rw [List.take_take]; norm_num
  · cases chooseClassifier r with
    | kraken2 =>
      show List.take 4 (List.take 12 r.cells) = List.take 4 r.cells
      rw [List.take_take]; norm_num
    | blast =>
      show List.take 4 (List.take 4 r.cells ++ List.take 8 (List.drop 20 r.cells)) =
        List.take 4 r.cells
      exact take_four_append _ _ htl
    | seqmatch =>
      show List.take 4 (List.take 4 r.cells ++ List.take 7 (List.drop 13 r.cells)) =
        List.take 4 r.cells
      exact take_four_append _ _ htl

/-- Every branch of `choose_row` preserves the `reads_in_cluster` cell. -/
theorem choose_row_headI (r : Row) (h : 4 ≤ r.cells.length) :
    (choose_row r).headI = r.cells.headI := by
  have h4 := congrArg List.headI (choose_row_take4 r h)
  rwa [headI_take_four, headI_take_four] at h4

/-! ## Claims -/

/-- C7: for every rank tag among S/G/F/O (the ranks of the glossary), and any
local table and remote oracle, resolving a NaN taxid returns the literal
string `unclassified`: `get_taxname_from_dmp` answers before any table or
remote access, so the result is neither a remote lookup nor a stringified
id. -/
theorem nan_taxid_unclassified (remote : RemoteOracle) (data : List DmpRow)
    (lev : String) (hlev : lev ∈ ["S", "G", "F", "O"]) :
    resolveRow remote data none lev = .ok (.str "unclassified") := by
  fin_cases hlev <;> rfl

theorem nan_taxid_unclassified_witness :
    resolveRow (fun _ => .error ()) [] none "S" = .ok (.str "unclassified") :=
  nan_taxid_unclassified (fun _ => .error ()) [] "S" (by decide)

/-- C1 counterexample: with a taxid absent from the local table and a remote
request that raises (network failure — `requests.get` sits outside the `try`
in `get_taxname`), the per-row resolution raises, and the error escapes the
`try/except` of `merge_abundance` (whose `except` arm is unprotected), so a
single-row merge aborts. -/
theorem resolver_error_propagates_cex :
    resolveRow (fun _ => .error ()) [] (some 5) "S" = .error () ∧
    merge_abundance (fun _ => .error ()) [] "S"
      [⟨["rel_abundance", "reads"], [(some 5, [100, 3])]⟩] = .error () := by
  decide

/-- C1 (amended): for every taxid and recognized rank tag, per-row resolution
returns a value — without raising — provided the remote HTTP request itself
never raises; the returned string may be empty (empty remote name fields) or
a non-string local `sciname`, and a raising request propagates out of the
Resolver (see the counterexample). -/
theorem resolver_total_remote_no_raise (remote : RemoteOracle)
    (data : List DmpRow) (tax_id : Option ℚ) (lev : String)
    (hlev : lev ∈ ["S", "G", "F", "O", "C"])
    (hrem : ∀ id, ∃ recs, remote id = .ok recs) :
    ∃ v, resolveRow remote data tax_id lev = .ok v := by
  have hget : ∀ fld, remoteField lev = some fld →
      ∃ v, get_taxname remote tax_id lev = .ok v := by
    intro fld hf
    obtain ⟨recs, hr⟩ := hrem (pyint (nanToOne tax_id))
    refine ⟨.str (remoteName fld (nanToOne tax_id) recs), ?_⟩
    unfold get_taxname
    rw [hf, hr]
  obtain ⟨fld, hf⟩ : ∃ fld, remoteField lev = some fld := by
    fin_cases hlev <;> exact ⟨_, rfl⟩
  unfold resolveRow
  cases hdmp : get_taxname_from_dmp data tax_id lev with
  | ok v => exact ⟨v, rfl⟩
  | error e => exact hget fld hf

theorem resolver_total_remote_no_raise_witness :
    ∃ v, resolveRow (fun _ => .ok []) [] (some 5) "S" = .ok v :=
  resolver_total_remote_no_raise (fun _ => .ok []) [] (some 5) "S"
    (by decide) (fun _ => ⟨[], rfl⟩)

/-- C5: for every table that fails the extended-column precondition
(no more than 13 columns, i.e. no more than the baseline record's column
count), the reconciler emits the empty table that still carries exactly the
12 named columns. -/
theorem reconciler_baseline_empty_output (t : Table)
    (h : ¬ 13 < t.cols.length) :
    choose_classification t =
      ⟨["reads_in_cluster", "used_for_consensus", "reads_after_corr",
        "draft_id", "classifier_name", "taxid", "stat", "name", "species",
        "genus", "family", "order"], []⟩ := by
  unfold choose_classification
  rw [if_neg h]
  rfl

def C5t : Table :=
  ⟨List.replicate 12 "c",
   [⟨some (Val.str "S"), some (Val.num 5) :: List.replicate 11 none⟩]⟩

theorem reconciler_baseline_empty_output_witness :
    choose_classification C5t =
      ⟨["reads_in_cluster", "used_for_consensus", "reads_after_corr",
        "draft_id", "classifier_name", "taxid", "stat", "name", "species",
        "genus", "family", "order"], []⟩ :=
  reconciler_baseline_empty_output C5t (by decide)

/-- C2: for every record of an extended-column table, the species-exact
branch emits the first 12 columns verbatim; otherwise the three scores are
the non-missing counts at offsets 8–11 (kraken2), 24+ (blast), 16–19
(seqmatch), the winner is the maximum with ties broken in the dict's
insertion order (kraken2, then blast, then seqmatch), and the emitted record
is the winner's column slice — on a three-way tie, kraken2's baseline
columns. -/
theorem reconciler_per_row_selection (t : Table) (r : Row)
    (ht : 13 < t.cols.length) (hr : r ∈ t.rows) :
    (choose_classification t).rows = t.rows.map choose_row ∧
    (r.class_level = some (Val.str "S") → choose_row r = r.cells.take 12) ∧
    (r.class_level ≠ some (Val.str "S") →
      ((blastScore r ≤ kraken2Score r ∧ seqmatchScore r ≤ kraken2Score r) →
          choose_row r = r.cells.take 12) ∧
      ((kraken2Score r < blastScore r ∧ seqmatchScore r ≤ blastScore r) →
          choose_row r = r.cells.take 4 ++ (r.cells.drop 20).take 8) ∧
      ((kraken2Score r < seqmatchScore r ∧ blastScore r < seqmatchScore r) →
          choose_row r = r.cells.take 4 ++ (r.cells.drop 13).take 7) ∧
      ((kraken2Score r = blastScore r ∧ blastScore r = seqmatchScore r) →
          choose_row r = r.cells.take 12)) := by
  refine ⟨?_, ?_, ?_⟩
  · unfold choose_classification
    rw [if_pos ht]
  · intro hS
    unfold choose_row
    rw [if_pos hS]
  · intro hS
    refine ⟨?_, ?_, ?_, ?_⟩
    · intro ⟨h1, h2⟩
      unfold choose_row
      rw [if_neg hS, chooseClassifier_eq_kraken2 r h1 h2]
    · intro ⟨h1, h2⟩
      unfold choose_row
      rw [if_neg hS, chooseClassifier_eq_blast r h1 h2]
    · intro ⟨h1, h2⟩
      unfold choose_row
      rw [if_neg hS, chooseClassifier_eq_seqmatch r h1 h2]
    · intro ⟨h1, h2⟩
      unfold choose_row
      rw [if_neg hS, chooseClassifier_eq_kraken2 r (by omega) (by omega)]

def C2r : Row := ⟨none, List.replicate 14 (none : Cell)⟩

def C2t : Table := ⟨List.replicate 14 "c", [C2r]⟩

theorem reconciler_per_row_selection_witness :
    (choose_classification C2t).rows = C2t.rows.map choose_row ∧
    (C2r.class_level = some (Val.str "S") → choose_row C2r = C2r.cells.take 12) ∧
    (C2r.class_level ≠ some (Val.str "S") →
      ((blastScore C2r ≤ kraken2Score C2r ∧ seqmatchScore C2r ≤ kraken2Score C2r) →
          choose_row C2r = C2r.cells.take 12) ∧
      ((kraken2Score C2r < blastScore C2r ∧ seqmatchScore C2r ≤ blastScore C2r) →
          choose_row C2r = C2r.cells.take 4 ++ (C2r.cells.drop 20).take 8) ∧
      ((kraken2Score C2r < seqmatchScore C2r ∧ blastScore C2r < seqmatchScore C2r) →
          choose_row C2r = C2r.cells.take 4 ++ (C2r.cells.drop 13).take 7) ∧
      ((kraken2Score C2r = blastScore C2r ∧ blastScore C2r = seqmatchScore C2r) →
          choose_row C2r = C2r.cells.take 12)) :=
  reconciler_per_row_selection C2t C2r (by decide) (by decide)

/-- C10: on an extended-column (rectangular) table, reconciliation emits
exactly one output record per input record, every branch copies the first
four cells — `reads_in_cluster` included — verbatim, and hence the sequence
(so also the multiset and the total) of `reads_in_cluster` values is
preserved. -/
theorem reconciler_preserves_reads (t : Table)
    (ht : 13 < t.cols.length)
    (hw : ∀ r ∈ t.rows, r.cells.length = t.cols.length) :
    (choose_classification t).rows.length = t.rows.length ∧
    (choose_classification t).rows.map (fun cs => cs.take 4) =
      t.rows.map (fun r => r.cells.take 4) ∧
    (choose_classification t).rows.map (fun cs => cs.headI) =
      t.rows.map (fun r => r.cells.headI) := by
  have hrows : (choose_classification t).rows = t.rows.map choose_row := by
    unfold choose_classification
    rw [if_pos ht]
  have h4 : ∀ r ∈ t.rows, 4 ≤ r.cells.length := by
    intro r hr
    have := hw r hr
    omega
  refine ⟨?_, ?_, ?_⟩
  · rw [hrows, List.length_map]
  · rw [hrows, List.map_map]
    exact List.map_congr_left (fun r hr => choose_row_take4 r (h4 r hr))
  · rw [hrows, List.map_map]
    exact List.map_congr_left (fun r hr => choose_row_headI r (h4 r hr))

def C10t : Table :=
  ⟨List.replicate 14 "c",
   [⟨some (Val.str "S"), some (Val.num 3) :: List.replicate 13 none⟩,
    ⟨none, some (Val.num 1) :: List.replicate 13 (some (Val.str "x"))⟩]⟩

theorem reconciler_preserves_reads_witness :
    (choose_classification C10t).rows.length = C10t.rows.length ∧
    (choose_classification C10t).rows.map (fun cs => cs.take 4) =
      C10t.rows.map (fun r => r.cells.take 4) ∧
    (choose_classification C10t).rows.map (fun cs => cs.headI) =
      C10t.rows.map (fun r => r.cells.headI) :=
  reconciler_preserves_reads C10t (by decide) (by decide)

def C3cex : Table :=
  ⟨List.replicate 12 "c",
   [⟨some (Val.str "S"), some (Val.num 5) :: List.replicate 11 none⟩]⟩

/-- C3 counterexample: a baseline 12-column table with one cluster of 5 reads
has a nonzero total, yet `choose_classification` discards every row (the
column count is not above 13), so the reconciled table's `rel_abundance`
column is empty and sums to 0, not 100. -/
theorem abundance_sum_baseline_cex :
    sample_total C3cex = some 5 ∧
    rel_abundances C3cex = some [] ∧
    ([] : List ℚ).sum ≠ 100 := by
  refine ⟨?_, ?_, by norm_num⟩
  · show (mapMo (fun r => cellQ r.cells.headI) C3cex.rows).map List.sum = some 5
    rw [show mapMo (fun r => cellQ r.cells.headI) C3cex.rows = some [5] from rfl]
    simp
  · unfold rel_abundances
    rw [show sample_total C3cex =
      (mapMo (fun r => cellQ r.cells.headI) C3cex.rows).map List.sum from rfl]
    rw [show mapMo (fun r => cellQ r.cells.headI) C3cex.rows = some [5] from rfl]
    rfl

/-- C3 (amended): for every single-sample table *with extended classifier
columns* (more than 13, so reconciliation keeps the rows), rectangular, with
numeric non-negative integer `reads_in_cluster` cells summing to a nonzero
total, each `rel_abundance` entry is `reads / total * 100` and the entries
sum to 100. -/
theorem abundance_sum_100 (t : Table) (reads : List ℚ)
    (ht : 13 < t.cols.length)
    (hw : ∀ r ∈ t.rows, r.cells.length = t.cols.length)
    (hreads : t.rows.map (fun r => r.cells.headI) =
      reads.map (fun v => some (Val.num v)))
    (hnat : ∀ v ∈ reads, ∃ n : ℕ, v = (n : ℚ))
    (htot : reads.sum ≠ 0) :
    rel_abundances t = some (reads.map (fun v => some (v / reads.sum * 100))) ∧
    (reads.map (fun v => v / reads.sum * 100)).sum = 100 := by
  constructor
  · have h1 : sample_total t = some reads.sum := by
      unfold sample_total
      rw [mapMo_cellQ (fun r => r.cells.headI) t.rows reads hreads]
      rfl
    have hrows : (choose_classification t).rows = t.rows.map choose_row := by
      unfold choose_classification
      rw [if_pos ht]
    have hch : (choose_classification t).rows.map
        (fun cs : List Cell => cs.headI) =
        reads.map (fun v => some (Val.num v)) := by
      rw [hrows, List.map_map]
      exact (List.map_congr_left (fun r hr =>
        choose_row_headI r (by have := hw r hr; omega))).trans hreads
    have h2 : mapMo (fun cs : List Cell => cellQ cs.headI)
        (choose_classification t).rows =
        some reads := mapMo_cellQ (fun cs : List Cell => cs.headI) _ reads hch
    unfold rel_abundances
    rw [h1, h2]
    show some _ = some _
    congr 1
    refine List.map_congr_left (fun v hv => ?_)
    rw [pydiv, if_neg htot]
    rfl
  · have hfun : (fun v : ℚ => v / reads.sum * 100) =
        (fun v : ℚ => v * (100 / reads.sum)) := by
      funext v
      ring
    rw [hfun, List.sum_map_mul_right]
    rw [show List.map (fun v : ℚ => v) reads = reads from List.map_id' reads]
    field_simp

def C3t : Table :=
  ⟨List.replicate 14 "c",
   [⟨none, some (Val.num 3) :: List.replicate 13 none⟩,
    ⟨some (Val.str "S"), some (Val.num 1) :: List.replicate 13 none⟩]⟩

theorem abundance_sum_100_witness :
    rel_abundances C3t =
      some (([3, 1] : List ℚ).map (fun v =>
        some (v / ([3, 1] : List ℚ).sum * 100))) ∧
    (([3, 1] : List ℚ).map (fun v => v / ([3, 1] : List ℚ).sum * 100)).sum
      = 100 :=
  abundance_sum_100 C3t [3, 1] (by decide) (by decide) (by decide)
    (by
      intro v hv
      fin_cases hv
      · exact ⟨3, by norm_num⟩
      · exact ⟨1, by norm_num⟩)
    (by norm_num)

def C4t : Table :=
  ⟨List.replicate 14 "c",
   [⟨some (Val.str "S"), some (Val.num 0) :: List.replicate 13 none⟩]⟩

/-- C4: at the failing input — a single extended-column cluster with zero
reads, hence a zero total — the source performs the unguarded division
`reads_in_cluster / total`, so the entry is undefined (NaN /
`ZeroDivisionError`), not the `0` the claim requires. -/
theorem zero_total_rel_abundance_undefined :
    rel_abundances C4t = some [none] ∧ some [none] ≠ some [some (0 : ℚ)] := by
  constructor
  · unfold rel_abundances
    rw [show sample_total C4t =
      (mapMo (fun r => cellQ r.cells.headI) C4t.rows).map List.sum from rfl]
    rw [show mapMo (fun r => cellQ r.cells.headI) C4t.rows = some [0] from rfl]
    rw [show ((some [(0 : ℚ)]).map List.sum) = some ([(0 : ℚ)].sum) from rfl]
    rw [show ([(0 : ℚ)].sum) = 0 by simp]
    rfl
  · decide

def C6data : List DmpRow :=
  [⟨some 1, .str "b", .str "b", .str "b", .str "b", .str "b", none⟩,
   ⟨some 2, .str "a", .str "a", .str "a", .str "a", .str "a", none⟩]

def C6df : TaxDF :=
  ⟨["rel_abundance", "reads"], [(some 1, [50, 5]), (some 2, [50, 5])]⟩

/-- C6 counterexample: the input lists the taxid-1 row (which resolves to
"b") before the taxid-2 row (which resolves to "a"), and both rows carry the
same `rel_abundance` 50; ties keeping input order would put "b" first, but
`groupby` has already reordered the rows by resolved name, so the merged
output lists "a" first. -/
theorem merge_tie_order_cex :
    merge_abundance (fun _ => .error ()) C6data "S" [C6df] =
      .ok ⟨["rel_abundance", "reads"],
           [(.str "a", [50, 5]), (.str "b", [50, 5])]⟩ ∧
    [Val.str "a", Val.str "b"] ≠ [Val.str "b", Val.str "a"] := by decide

/-- C6 (amended): in a single-sample merge in which every taxid resolves,
rows with the same resolved display name are combined into one output row
whose numeric columns are the componentwise sums of the colliding rows'
values (output names are distinct, one row per distinct resolved name), and
the final rows are sorted by `rel_abundance` descending — but ties follow
the grouping step's name-sorted order, not the input order. -/
theorem merge_single_sample_group_sorted (remote : RemoteOracle)
    (data : List DmpRow) (lev : String) (d : TaxDF)
    (nameOf : Option ℚ → Val) (i : ℕ)
    (hres : ∀ k ∈ d.rows.map Prod.fst,
      resolveRow remote data k lev = .ok (nameOf k))
    (hcol : d.cols.findIdx? (fun c => decide (c = "rel_abundance")) = some i) :
    ∃ out, merge_abundance remote data lev [d] = .ok out ∧
      out.cols = d.cols ∧
      (out.rows.map Prod.fst).Perm
        ((d.rows.map (fun p => nameOf p.1)).dedup) ∧
      (out.rows.map Prod.fst).Nodup ∧
      (∀ p ∈ out.rows, p.2 = sumRows
        (((d.rows.map (fun q => (nameOf q.1, q.2))).filter
          (fun q => decide (q.1 = p.1))).map Prod.snd)) ∧
      out.rows.Pairwise
        (fun p q => (q.2.getD i 0 : ℚ) ≤ p.2.getD i 0) := by
  have hmap : mapMe (fun p : Option ℚ × List ℚ =>
      (resolveRow remote data p.1 lev).map (fun n => (n, p.2))) d.rows =
      .ok (d.rows.map (fun q => (nameOf q.1, q.2))) := by
    apply mapMe_eq_ok
    intro p hp
    rw [hres p.1 (List.mem_map_of_mem _ hp)]
    rfl
  have hgen : ∀ rows2 : List (Val × List ℚ),
      mapMe (fun p : Option ℚ × List ℚ =>
        (resolveRow remote data p.1 lev).map (fun n => (n, p.2))) d.rows =
        .ok rows2 →
      merge_abundance remote data lev [d] =
        sort_values_rel (groupbySum ⟨d.cols, rows2⟩) := by
    intro rows2 h
    have h1 : merge_abundance remote data lev [d] =
        match mapMe (fun p : Option ℚ × List ℚ =>
          (resolveRow remote data p.1 lev).map (fun n => (n, p.2)))
          d.rows with
        | .error e => .error e
        | .ok r2 => sort_values_rel (groupbySum ⟨d.cols, r2⟩) := rfl
    rw [h1, h]
  have hsort : sort_values_rel
      (groupbySum ⟨d.cols, d.rows.map (fun q => (nameOf q.1, q.2))⟩) =
      .ok ⟨d.cols, List.insertionSort
        (fun p q => (q.2.getD i 0 : ℚ) ≤ p.2.getD i 0)
        (groupbySum ⟨d.cols,
          d.rows.map (fun q => (nameOf q.1, q.2))⟩).rows⟩ := by
    unfold sort_values_rel
    rw [show (groupbySum ⟨d.cols,
      d.rows.map (fun q => (nameOf q.1, q.2))⟩).cols = d.cols from rfl, hcol]
  have hout : merge_abundance remote data lev [d] =
      .ok ⟨d.cols, List.insertionSort
        (fun p q => (q.2.getD i 0 : ℚ) ≤ p.2.getD i 0)
        (groupbySum ⟨d.cols, d.rows.map (fun q => (nameOf q.1, q.2))⟩).rows⟩ :=
    (hgen _ hmap).trans hsort
  have hperm : (List.insertionSort
      (fun p q : Val × List ℚ => (q.2.getD i 0 : ℚ) ≤ p.2.getD i 0)
      (groupbySum ⟨d.cols, d.rows.map (fun q => (nameOf q.1, q.2))⟩).rows).Perm
      (groupbySum ⟨d.cols, d.rows.map (fun q => (nameOf q.1, q.2))⟩).rows :=
    List.perm_insertionSort _ _
  have hGfst : (groupbySum ⟨d.cols,
      d.rows.map (fun q => (nameOf q.1, q.2))⟩).rows.map Prod.fst =
      List.insertionSort Val.le
        (((d.rows.map (fun q => (nameOf q.1, q.2))).map Prod.fst).dedup) := by
    rw [show (groupbySum ⟨d.cols,
        d.rows.map (fun q => (nameOf q.1, q.2))⟩).rows =
      (List.insertionSort Val.le
        (((d.rows.map (fun q => (nameOf q.1, q.2))).map Prod.fst).dedup)).map
        (fun k => (k, sumRows
          (((d.rows.map (fun q => (nameOf q.1, q.2))).filter
            (fun p => decide (p.1 = k))).map Prod.snd))) from rfl]
    rw [List.map_map]
    exact List.map_id' _
  have hrfst : (d.rows.map (fun q => (nameOf q.1, q.2))).map Prod.fst =
      d.rows.map (fun p => nameOf p.1) := by
    rw [List.map_map]
    rfl
  have hkeys : ((List.insertionSort
      (fun p q : Val × List ℚ => (q.2.getD i 0 : ℚ) ≤ p.2.getD i 0)
      (groupbySum ⟨d.cols,
        d.rows.map (fun q => (nameOf q.1, q.2))⟩).rows).map Prod.fst).Perm
      ((d.rows.map (fun p => nameOf p.1)).dedup) := by
    refine (hperm.map Prod.fst).trans ?_
    rw [hGfst, hrfst]
    exact List.perm_insertionSort _ _
  refine ⟨⟨d.cols, List.insertionSort
      (fun p q => (q.2.getD i 0 : ℚ) ≤ p.2.getD i 0)
      (groupbySum ⟨d.cols, d.rows.map (fun q => (nameOf q.1, q.2))⟩).rows⟩,
    hout, rfl, hkeys, ?_, ?_, ?_⟩
  · exact hkeys.symm.nodup (List.nodup_dedup _)
  · intro p hp
    have hp2 : p ∈ (groupbySum ⟨d.cols,
        d.rows.map (fun q => (nameOf q.1, q.2))⟩).rows := hperm.mem_iff.mp hp
    obtain ⟨k, hk, hpk⟩ := List.mem_map.mp hp2
    rw [← hpk]
  · haveI : IsTotal (Val × List ℚ)
        (fun p q => (q.2.getD i 0 : ℚ) ≤ p.2.getD i 0) :=
      ⟨fun a b => le_total _ _⟩
    haveI : IsTrans (Val × List ℚ)
        (fun p q => (q.2.getD i 0 : ℚ) ≤ p.2.getD i 0) :=
      ⟨fun a b c h1 h2 => le_trans h2 h1⟩
    exact List.sorted_insertionSort _ _

def C6wdata : List DmpRow :=
  [⟨some 7, .str "x", .str "x", .str "x", .str "x", .str "x", none⟩,
   ⟨some 8, .str "y", .str "y", .str "y", .str "y", .str "y", none⟩]

def C6wdf : TaxDF :=
  ⟨["rel_abundance", "reads"], [(some 7, [60, 6]), (some 8, [40, 4])]⟩

def C6wname : Option ℚ → Val := fun k => if k = some 7 then .str "x" else .str "y"

theorem merge_single_sample_group_sorted_witness :
    ∃ out, merge_abundance (fun _ => .error ()) C6wdata "S" [C6wdf] = .ok out ∧
      out.cols = C6wdf.cols ∧
      (out.rows.map Prod.fst).Perm
        ((C6wdf.rows.map (fun p => C6wname p.1)).dedup) ∧
      (out.rows.map Prod.fst).Nodup ∧
      (∀ p ∈ out.rows, p.2 = sumRows
        (((C6wdf.rows.map (fun q => (C6wname q.1, q.2))).filter
          (fun q => decide (q.1 = p.1))).map Prod.snd)) ∧
      out.rows.Pairwise
        (fun p q => (q.2.getD 0 0 : ℚ) ≤ p.2.getD 0 0) :=
  merge_single_sample_group_sorted (fun _ => .error ()) C6wdata "S" C6wdf
    C6wname 0 (by decide) (by decide)

def C8data : List DmpRow :=
  [⟨some 1, .str "n1", .str "n1", .str "n1", .str "n1", .str "n1", none⟩,
   ⟨some 2, .str "n2", .str "n2", .str "n2", .str "n2", .str "n2", none⟩]

def C8a : TaxDF := ⟨["rel_abundance", "reads"], [(some 1, [100, 5])]⟩

def C8b : TaxDF := ⟨["rel_abundance", "reads"], [(some 2, [100, 3])]⟩

/-- C8: merging two per-sample tables crashes in either order: the outer join
suffixes both samples' overlapping column labels to `rel_abundance_x` /
`rel_abundance_y`, so `sort_values(by='rel_abundance')` raises `KeyError`
and no merged table is ever produced — here evaluated on two one-row samples
whose taxids both resolve locally and with a healthy remote oracle. -/
theorem merge_two_samples_keyerror :
    merge_abundance (fun _ => .ok []) C8data "S" [C8a, C8b] = .error () ∧
    merge_abundance (fun _ => .ok []) C8data "S" [C8b, C8a] = .error () := by
  decide

/-- C9 counterexample: the script tail calls `get_abundance` with the rank
tags in source order G, S, O, F — genus, species, order, family — so the
output files are written in that order, not in the claimed sequence species,
genus, family, order. -/
theorem driver_rank_order_cex :
    (script (fun _ => .error ()) ⟨[], []⟩ "bc").map Prod.fst =
      ["rel_abundance_bc_G.csv", "rel_abundance_bc_S.csv",
       "rel_abundance_bc_O.csv", "rel_abundance_bc_F.csv"] ∧
    ["rel_abundance_bc_G.csv", "rel_abundance_bc_S.csv",
     "rel_abundance_bc_O.csv", "rel_abundance_bc_F.csv"] ≠
      ["rel_abundance_bc_S.csv", "rel_abundance_bc_G.csv",
       "rel_abundance_bc_F.csv", "rel_abundance_bc_O.csv"] := by decide

/-- C9 (amended): for every invocation the driver runs the
reconcile/compute/merge pipeline exactly once per rank tag, in the source
sequence G, S, O, F (genus, species, order, family), writing one
independently named file `rel_abundance_<barcode>_<tag>.csv` per rank; the
four file names are pairwise distinct. -/
theorem driver_rank_order_files (remote : RemoteOracle) (table : Table)
    (barcode : String) :
    script remote table barcode =
      ["G", "S", "O", "F"].map
        (fun lev => get_abundance remote [table] [barcode] lev) ∧
    (script remote table barcode).map Prod.fst =
      ["G", "S", "O", "F"].map (fun lev => outfileName barcode lev) ∧
    ((script remote table barcode).map Prod.fst).Nodup := by
  have hinj : Function.Injective (outfileName barcode) := by
    intro l1 l2 h
    have hd := congrArg String.data h
    simp only [outfileName, String.data_append] at hd
    have h1 := List.append_cancel_right hd
    have h2 := List.append_cancel_left h1
    cases l1 with
    | mk d1 => cases l2 with
      | mk d2 =>
        simp only at h2
        rw [h2]
  refine ⟨rfl, rfl, ?_⟩
  rw [show (script remote table barcode).map Prod.fst =
    ["G", "S", "O", "F"].map (fun lev => outfileName barcode lev) from rfl]
  exact (by decide : (["G", "S", "O", "F"] : List String).Nodup).map hinj
